import Mathlib

/-!
# Verification of the Uruguayan net-salary calculator (`src/main.py`)

Shallow embedding of the core computation of the API: contribution
calculation (`calcular_tasa_fonasa`), the progressive IRPF engine
(`calcular_irpf`), the deduction calculator (`calcular_deducciones_irpf`),
the orchestrator (`calcular_salario_liquido`), and the pydantic input
validation of `SalarioRequest`.

Numeric values are modelled as exact rationals (`ℚ`): the Python source
uses IEEE doubles, but every claim under verification is an exact
arithmetic identity of the algorithm, so we verify the real-arithmetic
semantics of the code.  `float("inf")` as an upper bracket bound is
modelled as `Option ℚ` with `none` standing for the unbounded bound.
Python's `round(x, 2)` is modelled as rounding `x * 100` to the nearest
integer; the half-to-even tie rule of Python only differs at exact
half-cent values, which no claim touches.
-/

namespace SalarioUY

/-- `BPC_2025 = 6576`, the Base de Prestaciones y Contribuciones constant. -/
def BPC_2025 : ℚ := 6576

/-- One entry of `FRANJAS_IRPF`: bounds in BPC units (`hasta = none`
encodes `float("inf")`) and the marginal rate. -/
structure Franja where
  desde : ℚ
  hasta : Option ℚ
  tasa : ℚ
deriving DecidableEq, Repr

/-- The 2024 IRPF bracket table `FRANJAS_IRPF` from the source. -/
def FRANJAS_IRPF : List Franja :=
  [ ⟨0, some 7, 0⟩,
    ⟨7, some 10, 10/100⟩,
    ⟨10, some 15, 15/100⟩,
    ⟨15, some 30, 24/100⟩,
    ⟨30, some 50, 25/100⟩,
    ⟨50, some 75, 27/100⟩,
    ⟨75, some 115, 31/100⟩,
    ⟨115, none, 36/100⟩ ]

/-- `calcular_tasa_fonasa`: FONASA rate from salary and dependents.
The two branches of the `salario_en_bpc ≥ 2.5` case are kept separate,
as in the source, even though both return the base rate. -/
def calcular_tasa_fonasa (salario_nominal : ℚ) (hijos_a_cargo : ℤ)
    (conyuge_a_cargo : Bool) : ℚ :=
  let salario_en_bpc := salario_nominal / BPC_2025
  let tasa_base : ℚ := 45/1000
  if salario_en_bpc < 5/2 then
    if 0 < hijos_a_cargo ∨ conyuge_a_cargo = true then 3/100
    else tasa_base
  else
    if 0 < hijos_a_cargo ∨ conyuge_a_cargo = true then tasa_base
    else tasa_base

/-- One entry of the `detalle` list built by `calcular_irpf`.  The Python
dict's `"franja"` label (the pair of bounds in BPC) is kept as the two
numeric fields `desde`/`hasta`; the other fields are as in the source. -/
structure DetalleFranja where
  desde : ℚ
  hasta : Option ℚ
  monto_gravado : ℚ
  tasa : ℚ
  impuesto : ℚ
deriving DecidableEq, Repr

/-- `min(base_restante, hasta_pesos - desde_pesos)` of the loop body of
`calcular_irpf`: when `hasta` is `float("inf")` (`none`) the width is
infinite and the `min` is `base_restante` itself. -/
def montoEnFranja (f : Franja) (base_restante : ℚ) : ℚ :=
  match f.hasta with
  | none => base_restante
  | some h => min base_restante (h * BPC_2025 - f.desde * BPC_2025)

/-- The `for franja in FRANJAS_IRPF` loop of `calcular_irpf`, carrying
`base_restante`; `base_irpf` is the loop-constant original base used in
the `base_irpf > desde_pesos` test.  Returning `(0, [])` on
`base_restante ≤ 0` models the `break` (the already-accumulated prefix
is added by the callers of the recursion). -/
def irpfLoop (base_irpf : ℚ) : List Franja → ℚ → ℚ × List DetalleFranja
  | [], _ => (0, [])
  | f :: rest, base_restante =>
    if base_restante ≤ 0 then (0, [])
    else if f.desde * BPC_2025 < base_irpf then
      if 0 < montoEnFranja f base_restante then
        (montoEnFranja f base_restante * f.tasa
           + (irpfLoop base_irpf rest
               (base_restante - montoEnFranja f base_restante)).1,
         ⟨f.desde, f.hasta, montoEnFranja f base_restante, f.tasa,
            montoEnFranja f base_restante * f.tasa⟩
           :: (irpfLoop base_irpf rest
               (base_restante - montoEnFranja f base_restante)).2)
      else irpfLoop base_irpf rest base_restante
    else irpfLoop base_irpf rest base_restante

/-- `calcular_irpf`: total IRPF and per-bracket breakdown. -/
def calcular_irpf (base_irpf : ℚ) : ℚ × List DetalleFranja :=
  irpfLoop base_irpf FRANJAS_IRPF base_irpf

/-- `calcular_deducciones_irpf`: deductions from dependents and the
additional declared deductions. -/
def calcular_deducciones_irpf (hijos_a_cargo : ℤ) (conyuge_a_cargo : Bool)
    (deducciones_adicionales : ℚ) : ℚ :=
  (hijos_a_cargo : ℚ) * (1/2 * BPC_2025)
    + (if conyuge_a_cargo then 1/2 * BPC_2025 else 0)
    + deducciones_adicionales

/-- The validated `SalarioRequest` record. -/
structure SalarioRequest where
  salario_nominal : ℚ
  hijos_a_cargo : ℤ
  conyuge_a_cargo : Bool
  deducciones_adicionales : ℚ
deriving DecidableEq, Repr

/-- The pydantic invariants of `SalarioRequest`:
`salario_nominal` has `gt=23604`, `hijos_a_cargo` has `ge=0`,
`deducciones_adicionales` has `ge=0`. -/
def EntradaValida (d : SalarioRequest) : Prop :=
  23604 < d.salario_nominal ∧ 0 ≤ d.hijos_a_cargo ∧ 0 ≤ d.deducciones_adicionales

instance (d : SalarioRequest) : Decidable (EntradaValida d) := by
  unfold EntradaValida; infer_instance

/-- The field a pydantic `ValidationError` reports for `SalarioRequest`. -/
inductive CampoInvalido where
  | salarioNominal
  | hijosACargo
  | deduccionesAdicionales
deriving DecidableEq, Repr

/-- Field validation of a candidate `SalarioRequest` body, as performed by
pydantic on the model's `Field` constraints: it either rejects with the
failing field or accepts the record unchanged (never corrects it). -/
def validar_salario_request (salario_nominal : ℚ) (hijos_a_cargo : ℤ)
    (conyuge_a_cargo : Bool) (deducciones_adicionales : ℚ) :
    Except CampoInvalido SalarioRequest :=
  if ¬ 23604 < salario_nominal then .error .salarioNominal
  else if ¬ 0 ≤ hijos_a_cargo then .error .hijosACargo
  else if ¬ 0 ≤ deducciones_adicionales then .error .deduccionesAdicionales
  else .ok ⟨salario_nominal, hijos_a_cargo, conyuge_a_cargo, deducciones_adicionales⟩

/-- The `DetalleCalculos` response model: every intermediate value. -/
structure DetalleCalculos where
  salario_nominal : ℚ
  aporte_jubilatorio : ℚ
  aporte_fonasa : ℚ
  aporte_frl : ℚ
  total_aportes_bps : ℚ
  base_irpf : ℚ
  irpf_bruto : ℚ
  deducciones_irpf : ℚ
  irpf_neto : ℚ
  salario_liquido : ℚ
  tasa_fonasa_aplicada : ℚ
  detalle_irpf : List DetalleFranja
deriving DecidableEq, Repr

/-- The `SalarioResponse` model. -/
structure SalarioResponse where
  calculos : DetalleCalculos
  porcentaje_descuento_total : ℚ
  bpc_usado : ℚ
deriving DecidableEq, Repr

/-- Python's `round(x, 2)` on the values this code produces: round
`x * 100` to the nearest integer isn't distinguishable from the
half-to-even rule at any non-half-cent value. -/
def round2 (x : ℚ) : ℚ := (round (x * 100) : ℤ) / 100

/-- The `/calcular` endpoint body `calcular_salario_liquido`, step for
step as in the source. -/
def calcular_salario_liquido (datos : SalarioRequest) : SalarioResponse :=
  let salario_nominal := datos.salario_nominal
  let aporte_jubilatorio := salario_nominal * (15/100)
  let tasa_fonasa :=
    calcular_tasa_fonasa salario_nominal datos.hijos_a_cargo datos.conyuge_a_cargo
  let aporte_fonasa := salario_nominal * tasa_fonasa
  let aporte_frl := salario_nominal * (1/1000)
  let total_aportes_bps := aporte_jubilatorio + aporte_fonasa + aporte_frl
  let salario_en_bpc := salario_nominal / BPC_2025
  let base_irpf :=
    if 10 < salario_en_bpc then salario_nominal * (106/100) - total_aportes_bps
    else salario_nominal - total_aportes_bps
  let r := calcular_irpf base_irpf
  let deducciones_irpf :=
    calcular_deducciones_irpf datos.hijos_a_cargo datos.conyuge_a_cargo
      datos.deducciones_adicionales
  let irpf_neto := max 0 (r.1 - deducciones_irpf)
  let salario_liquido := salario_nominal - total_aportes_bps - irpf_neto
  let porcentaje_descuento :=
    ((salario_nominal - salario_liquido) / salario_nominal) * 100
  { calculos :=
      { salario_nominal := salario_nominal
        aporte_jubilatorio := aporte_jubilatorio
        aporte_fonasa := aporte_fonasa
        aporte_frl := aporte_frl
        total_aportes_bps := total_aportes_bps
        base_irpf := base_irpf
        irpf_bruto := r.1
        deducciones_irpf := deducciones_irpf
        irpf_neto := irpf_neto
        salario_liquido := salario_liquido
        tasa_fonasa_aplicada := tasa_fonasa
        detalle_irpf := r.2 }
    porcentaje_descuento_total := round2 porcentaje_descuento
    bpc_usado := BPC_2025 }

/-- A contiguous chain of brackets whose lower bounds start at `d`, with
increasing bounds, ending in an unbounded bracket.  `FRANJAS_IRPF` is a
chain from `0`; the invariant of `irpfLoop` lives on such chains. -/
def Cadena : ℚ → List Franja → Prop
  | _, [] => False
  | d, f :: rest =>
    f.desde = d ∧
      match f.hasta with
      | none => True
      | some h => d < h ∧ Cadena h rest

/- ### Lemmas about the progressive engine -/

lemma BPC_pos : (0 : ℚ) < BPC_2025 := by norm_num [BPC_2025]

lemma cadena_franjas : Cadena 0 FRANJAS_IRPF := by
  simp only [FRANJAS_IRPF, Cadena]
  norm_num

lemma irpfLoop_nonpos (base_irpf : ℚ) (fs : List Franja) (base_restante : ℚ)
    (h : base_restante ≤ 0) : irpfLoop base_irpf fs base_restante = (0, []) := by
  cases fs with
  | nil => simp [irpfLoop]
  | cons f rest => simp only [irpfLoop]; rw [if_pos h]

/-- Invariant of `irpfLoop` on a bracket chain: when the loop is entered
with positive `restante` and `base = restante + d * BPC_2025` (the part
of the base below the current chain has been consumed), the breakdown
amounts sum to `restante`, the returned total is the sum of
`amount × rate` over the breakdown, and every breakdown entry has a
positive amount bounded by its bracket's width. -/
lemma irpfLoop_spec (base : ℚ) (fs : List Franja) :
    ∀ d restante : ℚ, Cadena d fs → 0 < restante →
      base = restante + d * BPC_2025 →
      ((irpfLoop base fs restante).2.map DetalleFranja.monto_gravado).sum
          = restante
      ∧ (irpfLoop base fs restante).1
          = ((irpfLoop base fs restante).2.map
              (fun e => e.monto_gravado * e.tasa)).sum
      ∧ ∀ e ∈ (irpfLoop base fs restante).2,
          0 < e.monto_gravado
          ∧ ∀ h, e.hasta = some h →
              e.monto_gravado ≤ (h - e.desde) * BPC_2025 := by
  induction fs with
  | nil =>
    intro d restante hc
    exact absurd hc (by simp [Cadena])
  | cons f rest ih =>
    intro d restante hc hr hbase
    obtain ⟨hdesde, hresto⟩ := hc
    have hcond : f.desde * BPC_2025 < base := by
      rw [hdesde, hbase]; linarith
    simp only [irpfLoop]
    rw [if_neg (not_le.mpr hr), if_pos hcond]
    cases hh : f.hasta with
    | none =>
      have hmonto : montoEnFranja f restante = restante := by
        simp [montoEnFranja, hh]
      rw [hmonto, if_pos hr, irpfLoop_nonpos base rest (restante - restante)
        (by linarith)]
      refine ⟨by simp, by simp, ?_⟩
      intro e he
      simp only [List.mem_cons, List.not_mem_nil, or_false] at he
      subst he
      exact ⟨hr, fun h hsome => by simp at hsome⟩
    | some hb =>
      rw [hh] at hresto
      obtain ⟨hdh, hcad⟩ := hresto
      have hwidth : (0 : ℚ) < hb * BPC_2025 - f.desde * BPC_2025 := by
        rw [hdesde]
        have := BPC_pos
        nlinarith
      have hmonto : montoEnFranja f restante
          = min restante (hb * BPC_2025 - f.desde * BPC_2025) := by
        simp [montoEnFranja, hh]
      have hmpos : 0 < montoEnFranja f restante := by
        rw [hmonto]; exact lt_min hr hwidth
      rw [if_pos hmpos]
      rcases le_or_lt restante (hb * BPC_2025 - f.desde * BPC_2025) with hle | hlt
      · -- the bracket absorbs all that remains
        have hm : montoEnFranja f restante = restante := by
          rw [hmonto]; exact min_eq_left hle
        rw [hm, irpfLoop_nonpos base rest (restante - restante) (by linarith)]
        refine ⟨by simp, by simp, ?_⟩
        intro e he
        simp only [List.mem_cons, List.not_mem_nil, or_false] at he
        subst he
        refine ⟨hr, fun h hsome => ?_⟩
        have hEq : hb = h := by simpa using hsome
        subst hEq
        show restante ≤ (hb - f.desde) * BPC_2025
        rw [sub_mul]
        exact hle
      · -- the bracket is filled and the loop continues
        have hm : montoEnFranja f restante
            = hb * BPC_2025 - f.desde * BPC_2025 := by
          rw [hmonto]; exact min_eq_right hlt.le
        have hbase' : base = (restante - montoEnFranja f restante)
            + hb * BPC_2025 := by
          rw [hm, hbase, hdesde]; ring
        have hr' : 0 < restante - montoEnFranja f restante := by
          rw [hm]; linarith
        obtain ⟨hsum, htot, hmem⟩ := ih hb _ hcad hr' hbase'
        refine ⟨?_, ?_, ?_⟩
        · simp only [List.map_cons, List.sum_cons, hsum]; ring
        · simp only [List.map_cons, List.sum_cons, htot]
        · intro e he
          simp only [List.mem_cons] at he
          rcases he with he | he
          · subst he
            refine ⟨hmpos, fun h hsome => ?_⟩
            have hEq : hb = h := by simpa using hsome
            subst hEq
            show montoEnFranja f restante ≤ (hb - f.desde) * BPC_2025
            rw [hm, sub_mul]
          · exact hmem e he

lemma irpfLoop_cons (base : ℚ) (f : Franja) (rest : List Franja) (restante : ℚ)
    (h0 : ¬ restante ≤ 0) (h1 : f.desde * BPC_2025 < base)
    (h2 : 0 < montoEnFranja f restante) :
    irpfLoop base (f :: rest) restante
      = (montoEnFranja f restante * f.tasa
           + (irpfLoop base rest (restante - montoEnFranja f restante)).1,
         ⟨f.desde, f.hasta, montoEnFranja f restante, f.tasa,
            montoEnFranja f restante * f.tasa⟩
           :: (irpfLoop base rest (restante - montoEnFranja f restante)).2) := by
  simp only [irpfLoop]
  rw [if_neg h0, if_pos h1, if_pos h2]

/-- On a positive base, the first breakdown entry produced by
`calcular_irpf` is the first, zero-rate bracket. -/
lemma calcular_irpf_head (base : ℚ) (hb : 0 < base) :
    ∃ e resto, (calcular_irpf base).2 = e :: resto
      ∧ e.desde = 0 ∧ e.tasa = 0 := by
  have h1 : (⟨0, some 7, 0⟩ : Franja).desde * BPC_2025 < base := by
    show (0 : ℚ) * BPC_2025 < base
    simpa using hb
  have h2 : 0 < montoEnFranja ⟨0, some 7, 0⟩ base := by
    show 0 < min base (7 * BPC_2025 - 0 * BPC_2025)
    refine lt_min hb ?_
    norm_num [BPC_2025]
  have hstep := irpfLoop_cons base ⟨0, some 7, 0⟩ FRANJAS_IRPF.tail base
    (not_le.mpr hb) h1 h2
  refine ⟨⟨0, some 7, montoEnFranja ⟨0, some 7, 0⟩ base, 0,
            montoEnFranja ⟨0, some 7, 0⟩ base * 0⟩,
          (irpfLoop base FRANJAS_IRPF.tail
            (base - montoEnFranja ⟨0, some 7, 0⟩ base)).2, ?_, rfl, rfl⟩
  show (irpfLoop base ((⟨0, some 7, 0⟩ : Franja) :: FRANJAS_IRPF.tail) base).2 = _
  rw [hstep]

/- ### Lemmas about the FONASA rate and the orchestrator -/

lemma tasa_fonasa_cases (s : ℚ) (hijos : ℤ) (cony : Bool) :
    calcular_tasa_fonasa s hijos cony = 3/100
      ∨ calcular_tasa_fonasa s hijos cony = 45/1000 := by
  by_cases h1 : s / BPC_2025 < 5/2 <;> by_cases h2 : 0 < hijos ∨ cony = true <;>
    simp [calcular_tasa_fonasa, h1, h2]

lemma tasa_fonasa_nonneg (s : ℚ) (hijos : ℤ) (cony : Bool) :
    0 ≤ calcular_tasa_fonasa s hijos cony := by
  rcases tasa_fonasa_cases s hijos cony with h | h <;> norm_num [h]

lemma tasa_fonasa_le (s : ℚ) (hijos : ℤ) (cony : Bool) :
    calcular_tasa_fonasa s hijos cony ≤ 45/1000 := by
  rcases tasa_fonasa_cases s hijos cony with h | h <;> norm_num [h]

lemma csl_total (datos : SalarioRequest) :
    (calcular_salario_liquido datos).calculos.total_aportes_bps
      = datos.salario_nominal * (15/100)
        + datos.salario_nominal
            * calcular_tasa_fonasa datos.salario_nominal datos.hijos_a_cargo
                datos.conyuge_a_cargo
        + datos.salario_nominal * (1/1000) := rfl

lemma csl_base (datos : SalarioRequest) :
    (calcular_salario_liquido datos).calculos.base_irpf
      = if 10 < datos.salario_nominal / BPC_2025
        then datos.salario_nominal * (106/100)
          - (calcular_salario_liquido datos).calculos.total_aportes_bps
        else datos.salario_nominal
          - (calcular_salario_liquido datos).calculos.total_aportes_bps := rfl

lemma csl_neto (datos : SalarioRequest) :
    (calcular_salario_liquido datos).calculos.irpf_neto
      = max 0 ((calcular_salario_liquido datos).calculos.irpf_bruto
          - (calcular_salario_liquido datos).calculos.deducciones_irpf) := rfl

lemma csl_detalle (datos : SalarioRequest) :
    (calcular_salario_liquido datos).calculos.detalle_irpf
      = (calcular_irpf
          ((calcular_salario_liquido datos).calculos.base_irpf)).2 := rfl

/- ### The claims -/

/-- C1: for every valid `SalarioRequest`, the net salary equals the
gross salary minus total contributions minus net IRPF, and the net
salary never exceeds the gross salary. -/
theorem C1_salario_liquido (datos : SalarioRequest) (hv : EntradaValida datos) :
    (calcular_salario_liquido datos).calculos.salario_liquido
      = datos.salario_nominal
        - (calcular_salario_liquido datos).calculos.total_aportes_bps
        - (calcular_salario_liquido datos).calculos.irpf_neto
    ∧ (calcular_salario_liquido datos).calculos.salario_liquido
        ≤ datos.salario_nominal := by
  obtain ⟨hs, -, -⟩ := hv
  have hspos : (0 : ℚ) < datos.salario_nominal := by linarith
  refine ⟨rfl, ?_⟩
  have h1 : 0 ≤ (calcular_salario_liquido datos).calculos.total_aportes_bps := by
    rw [csl_total]
    have h0 := tasa_fonasa_nonneg datos.salario_nominal datos.hijos_a_cargo
      datos.conyuge_a_cargo
    have h2 := mul_nonneg hspos.le h0
    nlinarith
  have h2 : 0 ≤ (calcular_salario_liquido datos).calculos.irpf_neto := by
    rw [csl_neto]; exact le_max_left 0 _
  have heq : (calcular_salario_liquido datos).calculos.salario_liquido
      = datos.salario_nominal
        - (calcular_salario_liquido datos).calculos.total_aportes_bps
        - (calcular_salario_liquido datos).calculos.irpf_neto := rfl
  rw [heq]
  linarith

/-- witness for C1 at the concrete valid input of the spec scenario -/
theorem C1_salario_liquido_witness :
    EntradaValida ⟨30000, 0, false, 0⟩
    ∧ ((calcular_salario_liquido ⟨30000, 0, false, 0⟩).calculos.salario_liquido
        = 30000
          - (calcular_salario_liquido
              ⟨30000, 0, false, 0⟩).calculos.total_aportes_bps
          - (calcular_salario_liquido ⟨30000, 0, false, 0⟩).calculos.irpf_neto
       ∧ (calcular_salario_liquido ⟨30000, 0, false, 0⟩).calculos.salario_liquido
          ≤ 30000) :=
  ⟨by decide, C1_salario_liquido ⟨30000, 0, false, 0⟩ (by decide)⟩

/-- C2: for every strictly positive taxable base, the breakdown amounts
sum exactly to the base, the returned total tax is the sum of
`amount × rate` over the breakdown, and each entry taxes only a positive
slice bounded by its own bracket's width. -/
theorem C2_desglose (base : ℚ) (hpos : 0 < base) :
    ((calcular_irpf base).2.map DetalleFranja.monto_gravado).sum = base
    ∧ (calcular_irpf base).1
        = ((calcular_irpf base).2.map (fun e => e.monto_gravado * e.tasa)).sum
    ∧ ∀ e ∈ (calcular_irpf base).2,
        0 < e.monto_gravado
        ∧ ∀ h, e.hasta = some h →
            e.monto_gravado ≤ (h - e.desde) * BPC_2025 := by
  have h := irpfLoop_spec base FRANJAS_IRPF 0 base cadena_franjas hpos (by ring)
  simpa [calcular_irpf] using h

/-- witness for C2 at a base crossing into the second bracket -/
theorem C2_desglose_witness :
    (0 : ℚ) < 50000
    ∧ (((calcular_irpf 50000).2.map DetalleFranja.monto_gravado).sum = 50000
       ∧ (calcular_irpf 50000).1
           = ((calcular_irpf 50000).2.map
               (fun e => e.monto_gravado * e.tasa)).sum
       ∧ ∀ e ∈ (calcular_irpf 50000).2,
           0 < e.monto_gravado
           ∧ ∀ h, e.hasta = some h →
               e.monto_gravado ≤ (h - e.desde) * BPC_2025) :=
  ⟨by norm_num, C2_desglose 50000 (by norm_num)⟩

/-- C3: the FONASA rate is 3% exactly when the salary is below 2.5 BPC
and there is a dependent child or spouse; in every other case it is
4.5%. -/
theorem C3_tasa_fonasa (s : ℚ) (hijos : ℤ) (cony : Bool) :
    (calcular_tasa_fonasa s hijos cony = 3/100
       ↔ s / BPC_2025 < 5/2 ∧ (0 < hijos ∨ cony = true))
    ∧ (¬ (s / BPC_2025 < 5/2 ∧ (0 < hijos ∨ cony = true)) →
        calcular_tasa_fonasa s hijos cony = 45/1000) := by
  by_cases h1 : s / BPC_2025 < 5/2 <;> by_cases h2 : 0 < hijos ∨ cony = true <;>
    simp [calcular_tasa_fonasa, h1, h2] <;> norm_num

/-- witness for C3: above 2.5 BPC without dependents the rate is 4.5% -/
theorem C3_tasa_fonasa_witness :
    calcular_tasa_fonasa 30000 0 false = 45/1000 :=
  (C3_tasa_fonasa 30000 0 false).2 (by norm_num [BPC_2025])

/-- C4: the IRPF taxable base carries the 1.06 uplift exactly when the
salary strictly exceeds 10 BPC; at exactly 10 BPC no uplift applies. -/
theorem C4_base_irpf (datos : SalarioRequest) :
    ((calcular_salario_liquido datos).calculos.base_irpf
      = if 10 < datos.salario_nominal / BPC_2025
        then datos.salario_nominal * (106/100)
          - (calcular_salario_liquido datos).calculos.total_aportes_bps
        else datos.salario_nominal
          - (calcular_salario_liquido datos).calculos.total_aportes_bps)
    ∧ (datos.salario_nominal / BPC_2025 = 10 →
        (calcular_salario_liquido datos).calculos.base_irpf
          = datos.salario_nominal
            - (calcular_salario_liquido datos).calculos.total_aportes_bps) := by
  refine ⟨csl_base datos, fun h10 => ?_⟩
  rw [csl_base, h10, if_neg (by norm_num)]

/-- witness for C4: at a salary of exactly 10 BPC there is no uplift -/
theorem C4_base_irpf_witness :
    (calcular_salario_liquido ⟨65760, 0, false, 0⟩).calculos.base_irpf
      = 65760
        - (calcular_salario_liquido
            ⟨65760, 0, false, 0⟩).calculos.total_aportes_bps :=
  (C4_base_irpf ⟨65760, 0, false, 0⟩).2 (by norm_num [BPC_2025])

/-- C5: the retirement contribution is 15% of the gross salary and the
labor-fund contribution 0.1%, unconditionally, and the reported total is
exactly retirement + health + labor fund. -/
theorem C5_aportes (datos : SalarioRequest) :
    (calcular_salario_liquido datos).calculos.aporte_jubilatorio
        = (15/100) * datos.salario_nominal
    ∧ (calcular_salario_liquido datos).calculos.aporte_frl
        = (1/1000) * datos.salario_nominal
    ∧ (calcular_salario_liquido datos).calculos.total_aportes_bps
        = (calcular_salario_liquido datos).calculos.aporte_jubilatorio
          + (calcular_salario_liquido datos).calculos.aporte_fonasa
          + (calcular_salario_liquido datos).calculos.aporte_frl := by
  refine ⟨?_, ?_, rfl⟩
  · show datos.salario_nominal * (15/100) = (15/100) * datos.salario_nominal
    ring
  · show datos.salario_nominal * (1/1000) = (1/1000) * datos.salario_nominal
    ring

/-- C6: total IRPF deductions are half a BPC per child, plus half a BPC
for a dependent spouse, plus the additional declared deductions; the net
IRPF is `max 0 (gross − deductions)` and hence never negative. -/
theorem C6_deducciones (datos : SalarioRequest) :
    (calcular_salario_liquido datos).calculos.deducciones_irpf
      = (datos.hijos_a_cargo : ℚ) * (1/2 * BPC_2025)
        + (if datos.conyuge_a_cargo then 1/2 * BPC_2025 else 0)
        + datos.deducciones_adicionales
    ∧ (calcular_salario_liquido datos).calculos.irpf_neto
      = max 0 ((calcular_salario_liquido datos).calculos.irpf_bruto
          - (calcular_salario_liquido datos).calculos.deducciones_irpf)
    ∧ 0 ≤ (calcular_salario_liquido datos).calculos.irpf_neto := by
  refine ⟨rfl, rfl, ?_⟩
  rw [csl_neto]
  exact le_max_left 0 _

/-- C7: the spec's concrete scenario: gross 30000, no dependents, no
additional deductions, BPC 6576 — every intermediate and final value,
including the single zero-rate breakdown entry and the 19.6% discount. -/
theorem C7_escenario :
    calcular_salario_liquido ⟨30000, 0, false, 0⟩
      = { calculos :=
            { salario_nominal := 30000
              aporte_jubilatorio := 4500
              aporte_fonasa := 1350
              aporte_frl := 30
              total_aportes_bps := 5880
              base_irpf := 24120
              irpf_bruto := 0
              deducciones_irpf := 0
              irpf_neto := 0
              salario_liquido := 24120
              tasa_fonasa_aplicada := 45/1000
              detalle_irpf := [⟨0, some 7, 24120, 0, 0⟩] }
          porcentaje_descuento_total := 196/10
          bpc_usado := 6576 } := by
  norm_num [calcular_salario_liquido, calcular_tasa_fonasa, calcular_irpf,
    calcular_deducciones_irpf, round2, BPC_2025, FRANJAS_IRPF, montoEnFranja,
    irpfLoop, min_def, max_def]

/-- C8: on a non-positive taxable base the progressive engine returns
zero tax and an empty breakdown, with no error. -/
theorem C8_base_no_positiva (base : ℚ) (h : base ≤ 0) :
    calcular_irpf base = (0, []) :=
  irpfLoop_nonpos base FRANJAS_IRPF base h

/-- witness for C8 at a negative base -/
theorem C8_base_no_positiva_witness :
    (-3 : ℚ) ≤ 0 ∧ calcular_irpf (-3) = (0, []) :=
  ⟨by norm_num, C8_base_no_positiva (-3) (by norm_num)⟩

/-- C9: a gross salary exactly at the minimum-wage threshold 23604 is
rejected naming `salario_nominal`; one peso above is accepted unchanged;
negative children counts and negative additional deductions are rejected
naming their fields. -/
theorem C9_validacion :
    validar_salario_request 23604 0 false 0
        = Except.error CampoInvalido.salarioNominal
    ∧ validar_salario_request 23605 0 false 0
        = Except.ok ⟨23605, 0, false, 0⟩
    ∧ validar_salario_request 30000 (-1) false 0
        = Except.error CampoInvalido.hijosACargo
    ∧ validar_salario_request 30000 0 false (-5)
        = Except.error CampoInvalido.deduccionesAdicionales :=
  ⟨rfl, rfl, rfl, rfl⟩

/-- C10: for every accepted input, total contributions are at most
19.6% of the gross salary, so the taxable base is at least 80.4% of the
gross salary and strictly positive; consequently the breakdown list is
non-empty, its first entry is the zero-rate bracket, and the division by
the gross salary in the discount percentage is safe. -/
theorem C10_seguridad (datos : SalarioRequest) (hv : EntradaValida datos) :
    (calcular_salario_liquido datos).calculos.total_aportes_bps
        ≤ (196/1000) * datos.salario_nominal
    ∧ (804/1000) * datos.salario_nominal
        ≤ (calcular_salario_liquido datos).calculos.base_irpf
    ∧ 0 < (calcular_salario_liquido datos).calculos.base_irpf
    ∧ (calcular_salario_liquido datos).calculos.detalle_irpf ≠ []
    ∧ ((calcular_salario_liquido datos).calculos.detalle_irpf.head?).map
        DetalleFranja.tasa = some 0
    ∧ datos.salario_nominal ≠ 0 := by
  obtain ⟨hs, -, -⟩ := hv
  have hspos : (0 : ℚ) < datos.salario_nominal := by linarith
  have htle := tasa_fonasa_le datos.salario_nominal datos.hijos_a_cargo
    datos.conyuge_a_cargo
  have htotal : (calcular_salario_liquido datos).calculos.total_aportes_bps
      ≤ (196/1000) * datos.salario_nominal := by
    rw [csl_total]
    have h1 : datos.salario_nominal
          * calcular_tasa_fonasa datos.salario_nominal datos.hijos_a_cargo
              datos.conyuge_a_cargo
        ≤ datos.salario_nominal * (45/1000) :=
      mul_le_mul_of_nonneg_left htle hspos.le
    linarith
  have hbase : (804/1000) * datos.salario_nominal
      ≤ (calcular_salario_liquido datos).calculos.base_irpf := by
    rw [csl_base]
    split_ifs with h10
    · linarith
    · linarith
  have hbpos : 0 < (calcular_salario_liquido datos).calculos.base_irpf := by
    have h0 : (0 : ℚ) < (804/1000) * datos.salario_nominal := by positivity
    linarith
  obtain ⟨e, resto, hcons, hd0, hta0⟩ := calcular_irpf_head _ hbpos
  have hdet : (calcular_salario_liquido datos).calculos.detalle_irpf
      = e :: resto := by rw [csl_detalle]; exact hcons
  refine ⟨htotal, hbase, hbpos, ?_, ?_, ne_of_gt hspos⟩
  · rw [hdet]; simp
  · rw [hdet]; simp [hta0]

/-- witness for C10 at the concrete valid input of the spec scenario -/
theorem C10_seguridad_witness :
    EntradaValida ⟨30000, 0, false, 0⟩
    ∧ ((calcular_salario_liquido ⟨30000, 0, false, 0⟩).calculos.total_aportes_bps
          ≤ (196/1000) * 30000
       ∧ (804/1000) * 30000
          ≤ (calcular_salario_liquido ⟨30000, 0, false, 0⟩).calculos.base_irpf
       ∧ 0 < (calcular_salario_liquido ⟨30000, 0, false, 0⟩).calculos.base_irpf
       ∧ (calcular_salario_liquido ⟨30000, 0, false, 0⟩).calculos.detalle_irpf
          ≠ []
       ∧ ((calcular_salario_liquido
            ⟨30000, 0, false, 0⟩).calculos.detalle_irpf.head?).map
            DetalleFranja.tasa = some 0
       ∧ (30000 : ℚ) ≠ 0) :=
  ⟨by decide, C10_seguridad ⟨30000, 0, false, 0⟩ (by decide)⟩

end SalarioUY
